import Mathlib

/-!
Verification of the quadrature-encoder simulator in src/quadrature.cpp.

The core simulation lives in process_events: a polling loop that, when the
clock has reached sensorOldMillis and the simulation is not stopped, emits
the pin pair from nextStateTable at the current nextStateIndex, advances or
retreats the index (with clamping back into 0..3), updates transitionCount
and revTickCount by plus or minus one, and folds revTickCount into totalRefs
when it reaches plus or minus revTickThreshold.  Button events toggle the
stopSimulation flag and the direction flag.

Modelling conventions:
* C++ int is embedded as Int kept in two's-complement range by wrap32,
  making the (implementation-defined) wraparound on overflow explicit.
* millis() is embedded as a Nat argument passed to each loop iteration;
  the source calls millis() twice inside one iteration (guard and re-arm)
  but a 1 ms loop makes both reads the same tick value, so one now is used.
  unsigned long wraparound of the clock (at 2^64 ms) is not modelled.
* The GUI, LED and plotting calls have no effect on the simulation state
  and are omitted, as are the button events other than the blue (toggle
  simulation) and green (toggle direction) ones.
-/

namespace Quadrature

/-- Two's-complement wraparound of a C++ 32-bit signed int, embedded in Int. -/
def wrap32 (x : Int) : Int := (x + 2 ^ 31) % 2 ^ 32 - 2 ^ 31

/-- Source line 53: the fixed transition table of legal quadrature states,
entries are (pinA, pinB). -/
def nextStateTable : List (Int × Int) := [(0, 0), (1, 0), (1, 1), (0, 1)]

/-- Reading nextStateTable[i].  Out-of-range access is undefined behaviour in
the C++ source and never happens from reachable states (the index invariant);
the default (0, 0) is a modelling placeholder for that dead branch. -/
def stateTable (i : Int) : Int × Int := nextStateTable.getD i.toNat (0, 0)

/-- The mutable simulation state: the module globals of quadrature.cpp
(nextStateIndex, direction, sensorOldMillis, sensorRefreshRate, totalRefs,
quadMode, tickLimit) together with the locals of process_events
(stopSimulation, transitionCount, revTickThreshold, revTickCount,
sensorState). -/
structure SimState where
  nextStateIndex : Int
  direction : Int
  stopSimulation : Bool
  transitionCount : Int
  revTickCount : Int
  revTickThreshold : Int
  totalRefs : Int
  sensorOldMillis : Nat
  sensorRefreshRate : Nat
  sensorState : Int × Int
  quadMode : Nat
  tickLimit : Int
  deriving DecidableEq

/-- Source line 67: hardcoded tooth count of the simulated gear. -/
def numberTeeth : Nat := 25

/-- Source line 61: hardcoded quarter-period in milliseconds. -/
def sensorRefreshRate : Nat := 10

/-- Source line 68: revPerSecond = (1/float(sensorRefreshRate*4*numberTeeth))*1000.
At the program's fixed configuration (10 * 4 * 25 = 1000) the float value is
1.0 up to one ulp and static_cast<int> of it is exactly 1. -/
def revPerSecondInt : Int := 1

/-- Source line 303: revTickThreshold = 4*int(numberTeeth)*int(revPerSecond),
which is 4 * 25 * 1 = 100 at the program's fixed configuration. -/
def revTickThreshold : Int := 4 * (numberTeeth : Int) * revPerSecondInt

/-- The signed per-transition step of the counters: +1 when direction is
truthy (forward), -1 otherwise, mirroring the if(direction) branches at
source lines 336-347. -/
def dirSign (s : SimState) : Int := if s.direction ≠ 0 then 1 else -1

/-- The body of the guarded block at source lines 328-377: re-arm the
deadline, latch the pins from the table at the current index, step the
index with the two clamping ifs (lines 348-353), step transitionCount and
revTickCount, and fold a full revolution into totalRefs (lines 356-363). -/
def transitionStep (now : Nat) (s : SimState) : SimState :=
  let idx0 := if s.direction ≠ 0 then wrap32 (s.nextStateIndex + 1)
              else wrap32 (s.nextStateIndex - 1)
  let idx := if 3 < idx0 then 0 else if idx0 < 0 then 3 else idx0
  let tc := if s.direction ≠ 0 then wrap32 (s.transitionCount + 1)
            else wrap32 (s.transitionCount - 1)
  let rc := if s.direction ≠ 0 then wrap32 (s.revTickCount + 1)
            else wrap32 (s.revTickCount - 1)
  { s with
    sensorOldMillis := now + s.sensorRefreshRate
    sensorState := stateTable s.nextStateIndex
    nextStateIndex := idx
    transitionCount := tc
    revTickCount := if rc = s.revTickThreshold ∨ rc = -s.revTickThreshold then 0 else rc
    totalRefs := if rc = s.revTickThreshold ∨ rc = -s.revTickThreshold then
                   (if s.direction ≠ 0 then wrap32 (s.totalRefs + 1)
                    else wrap32 (s.totalRefs - 1))
                 else s.totalRefs }

/-- One iteration of the simulation section of the main loop (source line
327): the transition fires exactly when millis() >= sensorOldMillis and the
simulation is not stopped, otherwise the state is untouched. -/
def tick (now : Nat) (s : SimState) : SimState :=
  if s.sensorOldMillis ≤ now ∧ s.stopSimulation = false then transitionStep now s else s

/-- Blue-button handler (source lines 436-438): toggles the stopSimulation
flag and nothing else. -/
def toggleSimulation (s : SimState) : SimState :=
  { s with stopSimulation := !s.stopSimulation }

/-- Green-button handler (source lines 440-449): toggles direction between
1 and 0 and nothing else (the GUI write is presentation only). -/
def toggleDirection (s : SimState) : SimState :=
  { s with direction := if s.direction ≠ 0 then 0 else 1 }

/-- The initial state at entry to process_events: globals at their
initializers (nextStateIndex = 0, direction = 1, sensorOldMillis = 0,
totalRefs = 0, quadMode = 0, tickLimit = 1) and locals at theirs
(stopSimulation = true, transitionCount = 0, revTickCount = 0,
sensorState = (0, 0)). -/
def initState : SimState :=
  { nextStateIndex := 0
    direction := 1
    stopSimulation := true
    transitionCount := 0
    revTickCount := 0
    revTickThreshold := revTickThreshold
    totalRefs := 0
    sensorOldMillis := 0
    sensorRefreshRate := sensorRefreshRate
    sensorState := (0, 0)
    quadMode := 0
    tickLimit := 1 }

/-- The initial state with the simulation toggled on (one blue-button
press), the configuration in which transitions actually fire. -/
def runningInit : SimState := { initState with stopSimulation := false }

/-- Iterated loop iterations at the given clock readings. -/
def runTicks (nows : List Nat) (s : SimState) : SimState :=
  nows.foldl (fun st n => tick n st) s

/-- Iterated firing transitions (each one a due, unstopped loop iteration)
at the given clock readings. -/
def runTransitions (nows : List Nat) (s : SimState) : SimState :=
  nows.foldl (fun st n => transitionStep n st) s

/-- The state-changing operations the event loop can interleave: a loop
iteration at some clock value, the green-button direction toggle, and the
blue-button simulation toggle. -/
inductive Op where
  | tickAt (now : Nat)
  | toggleDir
  | toggleSim
  deriving DecidableEq

/-- Apply one operation. -/
def applyOp (s : SimState) : Op → SimState
  | Op.tickAt n => tick n s
  | Op.toggleDir => toggleDirection s
  | Op.toggleSim => toggleSimulation s

/-- Run a list of operations from a state. -/
def runOps (ops : List Op) (s : SimState) : SimState := ops.foldl applyOp s

/-- Modelled from the spec: the source has no construction or
reconfiguration path at all (numberTeeth and sensorRefreshRate are
hardcoded globals and the number-edit GUI event is unsupported), so the
configuration record of spec section 3 is modelled here from its words. -/
structure SimulationConfig where
  numberOfTeeth : Nat
  quarterPeriodMs : Nat
  deriving DecidableEq

/-- Modelled from the spec: the single error kind of the error taxonomy of
spec section 7. -/
inductive ConfigError where
  | configurationError
  deriving DecidableEq

/-- Modelled from the spec: constructing or reconfiguring with
numberOfTeeth == 0 or quarterPeriodMs == 0 raises a ConfigurationError
synchronously and leaves the prior configuration unchanged; a valid pair
replaces the configuration.  No such code exists in src/quadrature.cpp. -/
def configure (prior : SimulationConfig) (teeth qp : Nat) :
    SimulationConfig × Option ConfigError :=
  if teeth = 0 ∨ qp = 0 then (prior, some ConfigError.configurationError)
  else ({ numberOfTeeth := teeth, quarterPeriodMs := qp }, none)

theorem wrap32_eq_self {x : Int} (h1 : -(2 ^ 31) ≤ x) (h2 : x < 2 ^ 31) :
    wrap32 x = x := by
  have e1 : ((2 : Int) ^ 31) = 2147483648 := by norm_num
  have e2 : ((2 : Int) ^ 32) = 4294967296 := by norm_num
  unfold wrap32
  rw [e1] at h1 h2
  rw [e1, e2]
  rw [Int.emod_eq_of_lt (by omega) (by omega)]
  omega

theorem transitionStep_direction (now : Nat) (s : SimState) :
    (transitionStep now s).direction = s.direction := by
  simp [transitionStep]

theorem transitionStep_stopSimulation (now : Nat) (s : SimState) :
    (transitionStep now s).stopSimulation = s.stopSimulation := by
  simp [transitionStep]

theorem transitionStep_revTickThreshold (now : Nat) (s : SimState) :
    (transitionStep now s).revTickThreshold = s.revTickThreshold := by
  simp [transitionStep]

theorem transitionStep_sensorOldMillis (now : Nat) (s : SimState) :
    (transitionStep now s).sensorOldMillis = now + s.sensorRefreshRate := by
  simp [transitionStep]

theorem transitionStep_sensorState (now : Nat) (s : SimState) :
    (transitionStep now s).sensorState = stateTable s.nextStateIndex := by
  simp [transitionStep]

theorem transitionStep_index_char (now : Nat) (s : SimState)
    (h0 : 0 ≤ s.nextStateIndex) (h3 : s.nextStateIndex ≤ 3) :
    (transitionStep now s).nextStateIndex =
      if s.direction ≠ 0 then (s.nextStateIndex + 1) % 4
      else (s.nextStateIndex + 3) % 4 := by
  have hw1 : wrap32 (s.nextStateIndex + 1) = s.nextStateIndex + 1 :=
    wrap32_eq_self (by norm_num; omega) (by norm_num; omega)
  have hw2 : wrap32 (s.nextStateIndex - 1) = s.nextStateIndex - 1 :=
    wrap32_eq_self (by norm_num; omega) (by norm_num; omega)
  by_cases hd : s.direction ≠ 0
  · simp only [transitionStep, hd, if_true, hw1]
    have hi : s.nextStateIndex = 0 ∨ s.nextStateIndex = 1 ∨
        s.nextStateIndex = 2 ∨ s.nextStateIndex = 3 := by omega
    rcases hi with h | h | h | h <;> rw [h] <;> simp [hd]
  · simp only [transitionStep, hd, if_false, hw2]
    have hi : s.nextStateIndex = 0 ∨ s.nextStateIndex = 1 ∨
        s.nextStateIndex = 2 ∨ s.nextStateIndex = 3 := by omega
    rcases hi with h | h | h | h <;> rw [h] <;> simp [hd]

theorem transitionStep_index_range (now : Nat) (s : SimState)
    (h0 : 0 ≤ s.nextStateIndex) (h3 : s.nextStateIndex ≤ 3) :
    0 ≤ (transitionStep now s).nextStateIndex ∧
      (transitionStep now s).nextStateIndex ≤ 3 := by
  rw [transitionStep_index_char now s h0 h3]
  by_cases hd : s.direction ≠ 0
  · rw [if_pos hd]
    refine ⟨Int.emod_nonneg _ (by norm_num), ?_⟩
    have := Int.emod_lt_of_pos (s.nextStateIndex + 1) (show (0:Int) < 4 by norm_num)
    omega
  · rw [if_neg hd]
    refine ⟨Int.emod_nonneg _ (by norm_num), ?_⟩
    have := Int.emod_lt_of_pos (s.nextStateIndex + 3) (show (0:Int) < 4 by norm_num)
    omega

theorem tick_index_range (now : Nat) (s : SimState)
    (h0 : 0 ≤ s.nextStateIndex) (h3 : s.nextStateIndex ≤ 3) :
    0 ≤ (tick now s).nextStateIndex ∧ (tick now s).nextStateIndex ≤ 3 := by
  unfold tick
  split
  · exact transitionStep_index_range now s h0 h3
  · exact ⟨h0, h3⟩

theorem applyOp_index_range (s : SimState) (op : Op)
    (h0 : 0 ≤ s.nextStateIndex) (h3 : s.nextStateIndex ≤ 3) :
    0 ≤ (applyOp s op).nextStateIndex ∧ (applyOp s op).nextStateIndex ≤ 3 := by
  cases op with
  | tickAt n => exact tick_index_range n s h0 h3
  | toggleDir => exact ⟨h0, h3⟩
  | toggleSim => exact ⟨h0, h3⟩

theorem runOps_index_range (ops : List Op) (s : SimState)
    (h0 : 0 ≤ s.nextStateIndex) (h3 : s.nextStateIndex ≤ 3) :
    0 ≤ (runOps ops s).nextStateIndex ∧ (runOps ops s).nextStateIndex ≤ 3 := by
  induction ops generalizing s with
  | nil => exact ⟨h0, h3⟩
  | cons op rest ih =>
      have h := applyOp_index_range s op h0 h3
      exact ih (applyOp s op) h.1 h.2

theorem transitionStep_transitionCount (now : Nat) (s : SimState) :
    (transitionStep now s).transitionCount =
      wrap32 (s.transitionCount + dirSign s) := by
  by_cases hd : s.direction = 0 <;>
    simp [transitionStep, dirSign, hd, Int.sub_eq_add_neg]

theorem transitionStep_revTickCount (now : Nat) (s : SimState) :
    (transitionStep now s).revTickCount =
      (if wrap32 (s.revTickCount + dirSign s) = s.revTickThreshold ∨
          wrap32 (s.revTickCount + dirSign s) = -s.revTickThreshold then 0
       else wrap32 (s.revTickCount + dirSign s)) := by
  by_cases hd : s.direction = 0 <;>
    simp [transitionStep, dirSign, hd, Int.sub_eq_add_neg]

theorem transitionStep_totalRefs (now : Nat) (s : SimState) :
    (transitionStep now s).totalRefs =
      (if wrap32 (s.revTickCount + dirSign s) = s.revTickThreshold ∨
          wrap32 (s.revTickCount + dirSign s) = -s.revTickThreshold then
         wrap32 (s.totalRefs + dirSign s)
       else s.totalRefs) := by
  by_cases hd : s.direction = 0 <;>
    simp [transitionStep, dirSign, hd, Int.sub_eq_add_neg]

theorem tick_stopped (now : Nat) (s : SimState) (h : s.stopSimulation = true) :
    tick now s = s := by
  unfold tick
  rw [if_neg]
  simp [h]

theorem runTicks_cons (n : Nat) (rest : List Nat) (s : SimState) :
    runTicks (n :: rest) s = runTicks rest (tick n s) := rfl

theorem runTicks_stopped (nows : List Nat) (s : SimState)
    (h : s.stopSimulation = true) : runTicks nows s = s := by
  induction nows with
  | nil => rfl
  | cons n rest ih => rw [runTicks_cons, tick_stopped n s h, ih]

theorem set_stop_false_eq (s : SimState) (h : s.stopSimulation = false) :
    { s with stopSimulation := false } = s := by
  cases s
  simp_all

theorem dirSign_cases (s : SimState) : dirSign s = 1 ∨ dirSign s = -1 := by
  unfold dirSign
  by_cases hd : s.direction ≠ 0 <;> simp [hd]

theorem dirSign_of_direction_eq {s t : SimState}
    (h : s.direction = t.direction) : dirSign s = dirSign t := by
  unfold dirSign
  rw [h]

theorem runTransitions_cons (n : Nat) (rest : List Nat) (s : SimState) :
    runTransitions (n :: rest) s = runTransitions rest (transitionStep n s) := rfl

theorem rev_run_aux (T : Nat) (h31 : (4 * T : Int) < 2 ^ 31) :
    ∀ (nows : List Nat) (k : Nat) (s : SimState),
      s.revTickThreshold = (4 * T : Int) →
      s.revTickCount = dirSign s * k →
      k < 4 * T →
      k + nows.length ≤ 4 * T →
      (runTransitions nows s).direction = s.direction ∧
      (runTransitions nows s).revTickThreshold = s.revTickThreshold ∧
      (k + nows.length < 4 * T →
        (runTransitions nows s).revTickCount = dirSign s * (k + nows.length) ∧
        (runTransitions nows s).totalRefs = s.totalRefs) ∧
      (k + nows.length = 4 * T →
        (runTransitions nows s).revTickCount = 0 ∧
        (runTransitions nows s).totalRefs = wrap32 (s.totalRefs + dirSign s)) := by
  intro nows
  induction nows with
  | nil =>
      intro k s hthr hacc hk hlen
      refine ⟨rfl, rfl, fun _ => ⟨?_, rfl⟩,
        fun h => by simp only [List.length_nil] at h; omega⟩
      simpa using hacc
  | cons n rest ih =>
      intro k s hthr hacc hk hlen
      set s1 := transitionStep n s with hs1
      have hdir1 : s1.direction = s.direction := transitionStep_direction n s
      have hsg : dirSign s1 = dirSign s := dirSign_of_direction_eq hdir1
      have hthr1 : s1.revTickThreshold = (4 * T : Int) := by
        rw [hs1, transitionStep_revTickThreshold, hthr]
      have hsum : s.revTickCount + dirSign s = dirSign s * ((k : Int) + 1) := by
        rw [hacc]; ring
      have e31 : ((2 : Int) ^ 31) = 2147483648 := by norm_num
      have h31' : (4 * (T : Int)) < 2147483648 := by rw [e31] at h31; exact h31
      have hkk : ((k : Int) + 1) ≤ 4 * (T : Int) := by
        have := hk; omega
      have hbound : wrap32 (dirSign s * ((k : Int) + 1)) =
          dirSign s * ((k : Int) + 1) := by
        rcases dirSign_cases s with h | h <;> rw [h] <;>
          apply wrap32_eq_self <;> rw [e31] <;> omega
      have hacc1 : s1.revTickCount =
          (if dirSign s * ((k : Int) + 1) = (4 * T : Int) ∨
              dirSign s * ((k : Int) + 1) = -(4 * T : Int) then 0
           else dirSign s * ((k : Int) + 1)) := by
        rw [hs1, transitionStep_revTickCount, hsum, hbound, hthr]
      have htot1 : s1.totalRefs =
          (if dirSign s * ((k : Int) + 1) = (4 * T : Int) ∨
              dirSign s * ((k : Int) + 1) = -(4 * T : Int) then
             wrap32 (s.totalRefs + dirSign s)
           else s.totalRefs) := by
        rw [hs1, transitionStep_totalRefs, hsum, hbound, hthr]
      have hhit_iff : (dirSign s * ((k : Int) + 1) = (4 * T : Int) ∨
          dirSign s * ((k : Int) + 1) = -(4 * T : Int)) ↔ (k + 1 = 4 * T) := by
        rcases dirSign_cases s with h | h <;> rw [h] <;> constructor <;> intro hx
        · rcases hx with h1 | h1 <;> omega
        · left; omega
        · rcases hx with h1 | h1 <;> omega
        · right; omega
      rcases Nat.lt_or_ge (k + 1) (4 * T) with hlt | hge
      · have hhit : ¬(dirSign s * ((k : Int) + 1) = (4 * T : Int) ∨
            dirSign s * ((k : Int) + 1) = -(4 * T : Int)) := by
          rw [hhit_iff]; omega
        rw [if_neg hhit] at hacc1 htot1
        have hacc1' : s1.revTickCount = dirSign s1 * ((k + 1 : Nat) : Int) := by
          rw [hacc1, hsg]; push_cast; ring
        have hlen' : (k + 1) + rest.length ≤ 4 * T := by
          simp only [List.length_cons] at hlen; omega
        obtain ⟨ihdir, ihthr, ihlt, iheq⟩ := ih (k + 1) s1 hthr1 hacc1' hlt hlen'
        refine ⟨?_, ?_, ?_, ?_⟩
        · rw [runTransitions_cons, ← hs1, ihdir, hdir1]
        · rw [runTransitions_cons, ← hs1, ihthr, hthr1, hthr]
        · intro hlt2
          have hlt2' : (k + 1) + rest.length < 4 * T := by
            simp only [List.length_cons] at hlt2; omega
          obtain ⟨ha, hb⟩ := ihlt hlt2'
          constructor
          · rw [runTransitions_cons, ← hs1, ha, hsg]
            congr 1
            simp only [List.length_cons]
            push_cast
            ring
          · rw [runTransitions_cons, ← hs1, hb, htot1]
        · intro heq2
          have heq2' : (k + 1) + rest.length = 4 * T := by
            simp only [List.length_cons] at heq2; omega
          obtain ⟨ha, hb⟩ := iheq heq2'
          constructor
          · rw [runTransitions_cons, ← hs1, ha]
          · rw [runTransitions_cons, ← hs1, hb, htot1, hsg]
      · have heqk : k + 1 = 4 * T := by omega
        have hhit : dirSign s * ((k : Int) + 1) = (4 * T : Int) ∨
            dirSign s * ((k : Int) + 1) = -(4 * T : Int) := hhit_iff.mpr heqk
        rw [if_pos hhit] at hacc1 htot1
        have hrest : rest = [] := by
          simp only [List.length_cons] at hlen
          exact List.length_eq_zero.mp (by omega)
        subst hrest
        refine ⟨?_, ?_, ?_, ?_⟩
        · rw [runTransitions_cons, ← hs1]; exact hdir1
        · rw [runTransitions_cons, ← hs1,
            show runTransitions [] s1 = s1 from rfl, hthr1, hthr]
        · intro hlt2
          exfalso
          simp only [List.length_cons] at hlt2
          omega
        · intro _
          constructor
          · rw [runTransitions_cons, ← hs1]; exact hacc1
          · rw [runTransitions_cons, ← hs1]; exact htot1

theorem transitionStep_mode_comm (now : Nat) (s : SimState) (m : Nat) (l : Int) :
    transitionStep now { s with quadMode := m, tickLimit := l } =
      { transitionStep now s with quadMode := m, tickLimit := l } := by
  cases s
  simp [transitionStep]

theorem tick_mode_comm (now : Nat) (s : SimState) (m : Nat) (l : Int) :
    tick now { s with quadMode := m, tickLimit := l } =
      { tick now s with quadMode := m, tickLimit := l } := by
  unfold tick
  by_cases h : s.sensorOldMillis ≤ now ∧ s.stopSimulation = false
  · rw [if_pos h, if_pos h]
    exact transitionStep_mode_comm now s m l
  · rw [if_neg h, if_neg h]

theorem toggleDirection_mode_comm (s : SimState) (m : Nat) (l : Int) :
    toggleDirection { s with quadMode := m, tickLimit := l } =
      { toggleDirection s with quadMode := m, tickLimit := l } := by
  cases s
  simp [toggleDirection]

theorem toggleSimulation_mode_comm (s : SimState) (m : Nat) (l : Int) :
    toggleSimulation { s with quadMode := m, tickLimit := l } =
      { toggleSimulation s with quadMode := m, tickLimit := l } := by
  cases s
  simp [toggleSimulation]

theorem applyOp_mode_comm (s : SimState) (op : Op) (m : Nat) (l : Int) :
    applyOp { s with quadMode := m, tickLimit := l } op =
      { applyOp s op with quadMode := m, tickLimit := l } := by
  cases op with
  | tickAt n => exact tick_mode_comm n s m l
  | toggleDir => exact toggleDirection_mode_comm s m l
  | toggleSim => exact toggleSimulation_mode_comm s m l

theorem runOps_cons (op : Op) (rest : List Op) (s : SimState) :
    runOps (op :: rest) s = runOps rest (applyOp s op) := rfl

theorem runOps_mode_inert (ops : List Op) (s : SimState) (m : Nat) (l : Int) :
    runOps ops { s with quadMode := m, tickLimit := l } =
      { runOps ops s with quadMode := m, tickLimit := l } := by
  induction ops generalizing s with
  | nil => rfl
  | cons op rest ih =>
      rw [runOps_cons, runOps_cons, applyOp_mode_comm, ih]

/-- Claim C1: for every sequence of operations from the initial state the
encoder state index stays in the set of four legal values 0..3, and from
every legal state a forward transition steps the index along the cycle
0,1,2,3,0 (plus one modulo 4) while a reverse transition steps it along
0,3,2,1,0 (minus one modulo 4, with -1 clamped to 3): no state is skipped
and no negative index ever surfaces. -/
theorem c1_state_index_invariant :
    (∀ ops : List Op, 0 ≤ (runOps ops initState).nextStateIndex ∧
      (runOps ops initState).nextStateIndex ≤ 3) ∧
    (∀ (now : Nat) (s : SimState), 0 ≤ s.nextStateIndex → s.nextStateIndex ≤ 3 →
      (transitionStep now s).nextStateIndex =
        (if s.direction ≠ 0 then (s.nextStateIndex + 1) % 4
         else (s.nextStateIndex + 3) % 4)) := by
  constructor
  · intro ops
    exact runOps_index_range ops initState (by decide) (by decide)
  · intro now s h0 h3
    exact transitionStep_index_char now s h0 h3

/-- Witness for C1: a concrete run (unpause, forward tick, direction toggle,
reverse tick) stays in range, and the step rule evaluated at the initial
state. -/
theorem c1_state_index_invariant_witness :
    (0 ≤ (runOps [Op.toggleSim, Op.tickAt 0, Op.toggleDir, Op.tickAt 10]
        initState).nextStateIndex ∧
      (runOps [Op.toggleSim, Op.tickAt 0, Op.toggleDir, Op.tickAt 10]
        initState).nextStateIndex ≤ 3) ∧
    (transitionStep 0 initState).nextStateIndex =
      (if initState.direction ≠ 0 then (initState.nextStateIndex + 1) % 4
       else (initState.nextStateIndex + 3) % 4) :=
  ⟨c1_state_index_invariant.1 [Op.toggleSim, Op.tickAt 0, Op.toggleDir, Op.tickAt 10],
   c1_state_index_invariant.2 0 initState (by decide) (by decide)⟩

/-- Claim C2: with the revolution threshold equal to 4 * T (T the tooth
count) and the revolution tick accumulator at 0, exactly 4 * T consecutive
same-direction transitions change totalRefs by exactly +1 (forward) or -1
(reverse) and return the accumulator to 0.  The hypothesis is satisfied by
the program as built: its fixed configuration gives revTickThreshold =
4 * 25 * 1 = 100 = 4 * numberTeeth. -/
theorem c2_revolution_per_four_T (T : Nat) (s : SimState) (nows : List Nat)
    (hT : 0 < T) (h31 : (4 * T : Int) < 2 ^ 31)
    (hthr : s.revTickThreshold = (4 * T : Int))
    (hacc : s.revTickCount = 0)
    (hlen : nows.length = 4 * T) :
    (runTransitions nows s).revTickCount = 0 ∧
    (runTransitions nows s).totalRefs = wrap32 (s.totalRefs + dirSign s) := by
  have h := rev_run_aux T h31 nows 0 s hthr (by simpa using hacc)
    (by omega) (by omega)
  exact h.2.2.2 (by omega)

/-- Witness for C2 at the program's own configuration: 100 forward
transitions from the initial counters give one full revolution and an
accumulator back at 0. -/
theorem c2_revolution_per_four_T_witness :
    (runTransitions (List.replicate 100 0) initState).revTickCount = 0 ∧
    (runTransitions (List.replicate 100 0) initState).totalRefs =
      wrap32 (initState.totalRefs + dirSign initState) :=
  c2_revolution_per_four_T 25 initState (List.replicate 100 0) (by decide)
    (by decide) (by decide) (by decide) (by decide)

/-- Claim C3 counterexample: from the initial state (index 0, forward) the
transition emits the pin pair (0,0) read at the OLD index 0, which is not
the table entry (1,0) at the new index 1, refuting the claim that the
emitted pair is read at the index after the increment. -/
theorem c3_counterexample :
    (transitionStep 0 initState).sensorState ≠
      stateTable ((transitionStep 0 initState).nextStateIndex) := by decide

/-- Claim C3 (amended): every transition emits the pin pair read from the
fixed 4-entry table at the state index BEFORE the increment or decrement
(source lines 329-330 read the table before lines 336-353 step the index),
for every legal starting state and direction; since adjacent Gray states
always differ, the emitted pair never equals the table entry at the new
index. -/
theorem c3_pins_at_old_index (now : Nat) (s : SimState)
    (h0 : 0 ≤ s.nextStateIndex) (h3 : s.nextStateIndex ≤ 3) :
    (transitionStep now s).sensorState = stateTable s.nextStateIndex ∧
    (transitionStep now s).sensorState ≠
      stateTable ((transitionStep now s).nextStateIndex) := by
  refine ⟨transitionStep_sensorState now s, ?_⟩
  rw [transitionStep_sensorState, transitionStep_index_char now s h0 h3]
  have hi : s.nextStateIndex = 0 ∨ s.nextStateIndex = 1 ∨
      s.nextStateIndex = 2 ∨ s.nextStateIndex = 3 := by omega
  by_cases hd : s.direction ≠ 0
  · rw [if_pos hd]
    rcases hi with h | h | h | h <;> rw [h] <;> decide
  · rw [if_neg hd]
    rcases hi with h | h | h | h <;> rw [h] <;> decide

/-- Witness for C3 (amended) at the initial state going forward. -/
theorem c3_pins_at_old_index_witness :
    (transitionStep 5 initState).sensorState = stateTable initState.nextStateIndex ∧
    (transitionStep 5 initState).sensorState ≠
      stateTable ((transitionStep 5 initState).nextStateIndex) :=
  c3_pins_at_old_index 5 initState (by decide) (by decide)

/-- Claim C4: the timing gate is a level check: with the simulation running,
an iteration strictly before the deadline mutates nothing, and an iteration
at or arbitrarily far past the deadline fires exactly one transition and
rebases the next deadline to now + sensorRefreshRate, computed from the
current now and not from the missed deadline, so missed periods are dropped
and never caught up. -/
theorem c4_timing_gate (s : SimState) (now : Nat)
    (hrun : s.stopSimulation = false) :
    (now < s.sensorOldMillis → tick now s = s) ∧
    (s.sensorOldMillis ≤ now →
      tick now s = transitionStep now s ∧
      (tick now s).sensorOldMillis = now + s.sensorRefreshRate ∧
      (tick now s).transitionCount = wrap32 (s.transitionCount + dirSign s)) := by
  constructor
  · intro h
    unfold tick
    rw [if_neg (fun hc => absurd hc.1 (by omega))]
  · intro h
    have hc : s.sensorOldMillis ≤ now ∧ s.stopSimulation = false := ⟨h, hrun⟩
    unfold tick
    rw [if_pos hc]
    exact ⟨rfl, transitionStep_sensorOldMillis now s,
      transitionStep_transitionCount now s⟩

/-- Witness for C4: from the running initial state (stale deadline 0) a tick
at now = 1000, far past many 10 ms periods, fires one transition and rebases
the deadline to 1010. -/
theorem c4_timing_gate_witness :
    tick 1000 runningInit = transitionStep 1000 runningInit ∧
    (tick 1000 runningInit).sensorOldMillis =
      1000 + runningInit.sensorRefreshRate ∧
    (tick 1000 runningInit).transitionCount =
      wrap32 (runningInit.transitionCount + dirSign runningInit) :=
  (c4_timing_gate runningInit 1000 (by decide)).2 (by decide)

/-- Claim C5: while the simulation is stopped, every loop iteration mutates
nothing at all: the whole state (state index, transitionCount, revolution
accumulator, totalRefs, pin outputs, deadline) is unchanged across any
number of iterations. -/
theorem c5_paused_freezes (s : SimState) (nows : List Nat)
    (h : s.stopSimulation = true) :
    runTicks nows s = s :=
  runTicks_stopped nows s h

/-- Witness for C5: the freshly constructed (stopped) simulator ignores any
number of loop iterations. -/
theorem c5_paused_freezes_witness :
    runTicks [0, 5, 100, 1000] initState = initState :=
  c5_paused_freezes initState [0, 5, 100, 1000] (by decide)

/-- Claim C6 (modelled from the spec, the source has no configuration
path): configuring with numberOfTeeth = 0 or quarterPeriodMs = 0 yields the
single ConfigurationError kind synchronously and leaves the prior
configuration unchanged, while any positive pair is accepted and installed
with no error. -/
theorem c6_configuration_error (prior : SimulationConfig) (teeth qp : Nat) :
    ((teeth = 0 ∨ qp = 0) →
      configure prior teeth qp = (prior, some ConfigError.configurationError)) ∧
    (teeth ≠ 0 → qp ≠ 0 →
      configure prior teeth qp =
        ({ numberOfTeeth := teeth, quarterPeriodMs := qp }, none)) := by
  constructor
  · intro h
    unfold configure
    rw [if_pos h]
  · intro h1 h2
    unfold configure
    rw [if_neg (not_or.mpr ⟨h1, h2⟩)]

/-- Witness for C6: a zero quarter-period is rejected with the prior
configuration kept, and a positive pair is installed. -/
theorem c6_configuration_error_witness :
    configure { numberOfTeeth := 25, quarterPeriodMs := 10 } 25 0 =
      ({ numberOfTeeth := 25, quarterPeriodMs := 10 },
        some ConfigError.configurationError) ∧
    configure { numberOfTeeth := 25, quarterPeriodMs := 10 } 30 7 =
      ({ numberOfTeeth := 30, quarterPeriodMs := 7 }, none) :=
  ⟨(c6_configuration_error { numberOfTeeth := 25, quarterPeriodMs := 10 }
      25 0).1 (Or.inr rfl),
   (c6_configuration_error { numberOfTeeth := 25, quarterPeriodMs := 10 }
      30 7).2 (by decide) (by decide)⟩

/-- Claim C7 counterexample: the claim says the initial nextDeadline
(sensorOldMillis) equals the construction-time now, but the source
initializes it to the constant 0, and process_events only starts after the
LED intro (two loops of seven 50 ms waits plus 300 ms fades), so the
construction-time clock reading is at least 700 and the stored deadline 0
differs from it. -/
theorem c7_counterexample : initState.sensorOldMillis ≠ 700 := by decide

/-- Claim C7 (amended): at construction the simulator is stopped and
stateIndex, transitionCount, the revolution accumulator and totalRefs are
all 0, as the claim says; the initial nextDeadline however is the constant
0 (hence at or before every later clock reading, making the gate
immediately due once unpaused), not the construction-time now. -/
theorem c7_initial_state :
    initState.stopSimulation = true ∧
    initState.nextStateIndex = 0 ∧
    initState.transitionCount = 0 ∧
    initState.revTickCount = 0 ∧
    initState.totalRefs = 0 ∧
    initState.sensorOldMillis = 0 := by decide

/-- Claim C8: TickLimited mode is inert: no operation of the loop reads
quadMode or tickLimit (the mode check at source line 365 is an empty
comment), so for every operation sequence the entire resulting state -- and
hence every observable -- is the same whatever values those two fields
hold, and the simulator never stops on reaching tickLimit. -/
theorem c8_mode_inert (ops : List Op) (s : SimState) (m : Nat) (l : Int) :
    runOps ops { s with quadMode := m, tickLimit := l } =
      { runOps ops s with quadMode := m, tickLimit := l } :=
  runOps_mode_inert ops s m l

/-- Claim C9: every transition updates transitionCount by exactly +1 when
the direction is forward and -1 when it is reverse, with 32-bit
two's-complement wraparound and no guard: in particular at INT_MAX a
forward transition wraps to INT_MIN and no error path exists. -/
theorem c9_transition_count (now : Nat) (s : SimState) :
    (transitionStep now s).transitionCount =
      wrap32 (s.transitionCount + (if s.direction ≠ 0 then 1 else -1)) ∧
    (transitionStep 0 { runningInit with
      transitionCount := 2 ^ 31 - 1 }).transitionCount = -(2 ^ 31) := by
  constructor
  · exact transitionStep_transitionCount now s
  · decide

/-- Claim C10: the pause toggle changes only the stopSimulation flag and in
particular never advances or re-arms the deadline, so after pausing, any
number of paused iterations, and unpausing, the very first tick at or past
the stale deadline fires a transition immediately: time spent paused is
never added to the transition schedule. -/
theorem c10_pause_keeps_deadline (s : SimState) (nows : List Nat) (now : Nat)
    (hrun : s.stopSimulation = false) (hdue : s.sensorOldMillis ≤ now) :
    toggleSimulation s = { s with stopSimulation := true } ∧
    runTicks nows (toggleSimulation s) = toggleSimulation s ∧
    (runTicks nows (toggleSimulation s)).sensorOldMillis = s.sensorOldMillis ∧
    tick now (toggleSimulation (runTicks nows (toggleSimulation s))) =
      transitionStep now s := by
  have h1 : toggleSimulation s = { s with stopSimulation := true } := by
    simp [toggleSimulation, hrun]
  have h2 : runTicks nows (toggleSimulation s) = toggleSimulation s :=
    runTicks_stopped nows _ (by rw [h1])
  have h3 : (runTicks nows (toggleSimulation s)).sensorOldMillis =
      s.sensorOldMillis := by
    rw [h2, h1]
  have h4 : toggleSimulation (runTicks nows (toggleSimulation s)) = s := by
    rw [h2, h1]
    unfold toggleSimulation
    exact set_stop_false_eq s hrun
  have h5 : tick now (toggleSimulation (runTicks nows (toggleSimulation s))) =
      transitionStep now s := by
    rw [h4]
    unfold tick
    rw [if_pos ⟨hdue, hrun⟩]
  exact ⟨h1, h2, h3, h5⟩

/-- Witness for C10: pause the running simulator, sit through two paused
iterations, unpause, and the first tick at now = 70 (past the stale
deadline 0) fires at once. -/
theorem c10_pause_keeps_deadline_witness :
    toggleSimulation runningInit = { runningInit with stopSimulation := true } ∧
    runTicks [50, 60] (toggleSimulation runningInit) =
      toggleSimulation runningInit ∧
    (runTicks [50, 60] (toggleSimulation runningInit)).sensorOldMillis =
      runningInit.sensorOldMillis ∧
    tick 70 (toggleSimulation (runTicks [50, 60] (toggleSimulation runningInit))) =
      transitionStep 70 runningInit :=
  c10_pause_keeps_deadline runningInit [50, 60] 70 (by decide) (by decide)
